import Mathlib

/-!
Shallow embedding of `src/scripts/helpers/node.py` (warmup_project): a minimal
finite-state-machine harness for a mobile-robot controller.  The Python module
defines an exception `WaitingForData`, a behavioral-state base class `State`
(lifecycle hooks `activate`/`deactivate`, a `params` property) and a controller
class `Node` (sensor caches `_odom` / `_laser_point_cloud`, dispatch `update`,
`transition`, sensor accessors, `set_speed`, `mark_target`, `param`).

Modelling choices:
* Python floats are modelled by `RVal`: an exact rational, NaN, or a signed
  infinity.  `cmath.isnan` is true exactly on NaN (infinities are not NaN).
* ROS collaborators (publishers, the parameter server, the point-cloud
  decoder) are external to the spec's scope; publications are recorded as
  lists on the node, the parameter server is a lookup function carried by the
  node, and `ros_numpy.point_cloud2.pointcloud2_to_xyz_array` is modelled as
  reading the opaque payload of a `PointCloud2` message.
* Object identity and the mutable `State.node` back-reference are modelled by
  numeric ids; lifecycle and subscription calls are recorded in an event
  trace `Node.events` in the order the source makes them.
* A behavioral state's `update()` body is modelled by a program `Prog` over
  the controller surface the module offers to states (sensor accessors,
  `set_speed`, `mark_target`, `transition`, `param`), interpreted by
  `runProg`; raising an exception is a program outcome `some e`, with
  mutations made before the raise preserved, as in Python.
-/

namespace Warmup

/-- A Python float: exact rational value, NaN, or a signed infinity. -/
inductive RVal where
  | num (q : Rat)
  | nan
  | inf (neg : Bool)
deriving DecidableEq, Repr

/-- The `cmath.isnan` predicate: true exactly on NaN. -/
def RVal.isnan : RVal → Bool
  | .nan => true
  | _ => false

/-- Finiteness of a float: infinities and NaN are non-finite. -/
def RVal.isFinite : RVal → Bool
  | .num _ => true
  | _ => false

/-- A ROS parameter value (the `Any`-typed defaults in `default_params`). -/
inductive PVal where
  | str (s : String)
  | num (q : Rat)
  | flag (b : Bool)
deriving DecidableEq, Repr

/-- geometry_msgs Vector3. -/
structure Vector3 where
  x : RVal
  y : RVal
  z : RVal
deriving DecidableEq, Repr

/-- geometry_msgs Point. -/
structure Point where
  x : RVal
  y : RVal
  z : RVal
deriving DecidableEq, Repr

/-- geometry_msgs Quaternion. -/
structure Quaternion where
  x : RVal
  y : RVal
  z : RVal
  w : RVal
deriving DecidableEq, Repr

/-- geometry_msgs Pose. -/
structure Pose where
  position : Point
  orientation : Quaternion
deriving DecidableEq, Repr

/-- geometry_msgs PoseWithCovariance (covariance is irrelevant here). -/
structure PoseWithCovariance where
  pose : Pose
deriving DecidableEq, Repr

/-- geometry_msgs Twist. -/
structure Twist where
  linear : Vector3
  angular : Vector3
deriving DecidableEq, Repr

/-- geometry_msgs TwistWithCovariance (covariance is irrelevant here). -/
structure TwistWithCovariance where
  twist : Twist
deriving DecidableEq, Repr

/-- nav_msgs Odometry: a pose and a velocity twist. -/
structure Odometry where
  pose : PoseWithCovariance
  twist : TwistWithCovariance
deriving DecidableEq, Repr

/-- sensor_msgs PointCloud2, with its decoded xyz payload kept opaque. -/
structure PointCloud2 where
  points : List Point
deriving DecidableEq, Repr

/-- External decoder `ros_numpy.point_cloud2.pointcloud2_to_xyz_array`:
point-cloud decoding is an excluded collaborator, so it is modelled as
reading the opaque payload. -/
def pointcloud2_to_xyz_array (pc : PointCloud2) : List Point :=
  pc.points

/-- A Python exception at the dispatch boundary: either the module's own
`WaitingForData` ("data hasn't been received yet") or any other exception. -/
inductive PyErr where
  | waitingForData
  | other (msg : String)
deriving DecidableEq, Repr

/-- A behavioral state object (`class State`): its identity, the mutable
back-reference `node` (the owning controller's id while active, `None`
otherwise) and its declared `default_params`. -/
structure State where
  id : Nat
  node : Option Nat := none
  default_params : List (String × PVal) := []
deriving DecidableEq, Repr

/-- `State.activate(self, node)`: stores the controller reference. -/
def State.activate (s : State) (nodeId : Nat) : State :=
  { s with node := some nodeId }

/-- `State.deactivate(self)`: clears the controller reference. -/
def State.deactivate (s : State) : State :=
  { s with node := none }

/-- Observable lifecycle and registration calls, in the order the source
makes them. -/
inductive Event where
  | activated (sid : Nat)
  | deactivated (sid : Nat)
  | subscribed (topic : String)
deriving DecidableEq, Repr

/-- The controller (`class Node`).  `config` is the external ROS parameter
server; `published_twists` / `published_markers` record the outbound
publications; `log` records `print` output; `events` records lifecycle and
subscription calls. -/
structure Node where
  id : Nat
  config : String → Option PVal
  active_state : State
  _odom : Option Odometry := none
  _laser_point_cloud : Option PointCloud2 := none
  published_twists : List Twist := []
  published_markers : Nat := 0
  log : List String := []
  events : List Event := []

/-- `Node.__init__(self, starting_state, name)`: sets the active state and
activates it on `self`, creates the publishers, then registers the two
sensor subscriptions; both cache slots start out `None`. -/
def Node.init (id : Nat) (config : String → Option PVal) (starting_state : State)
    (name : String) : Node :=
  { id := id
    config := config
    active_state := starting_state.activate id
    _odom := none
    _laser_point_cloud := none
    published_twists := []
    published_markers := 0
    log := ["init_node: " ++ name]
    events := [Event.activated starting_state.id,
               Event.subscribed "/odom",
               Event.subscribed "/projected_stable_scan"] }

/-- Property `Node.odom`: the cached odometry, or raise `WaitingForData`. -/
def Node.odom (n : Node) : Except PyErr Odometry :=
  match n._odom with
  | none => Except.error PyErr.waitingForData
  | some o => Except.ok o

/-- Property `Node.laser_point_cloud`: the cached point cloud, or raise
`WaitingForData`. -/
def Node.laser_point_cloud (n : Node) : Except PyErr PointCloud2 :=
  match n._laser_point_cloud with
  | none => Except.error PyErr.waitingForData
  | some pc => Except.ok pc

/-- Property `Node.laser_points`: the decoded xyz array of the cached point
cloud; the accessor's `WaitingForData` propagates. -/
def Node.laser_points (n : Node) : Except PyErr (List Point) :=
  match n.laser_point_cloud with
  | Except.error e => Except.error e
  | Except.ok pc => Except.ok (pointcloud2_to_xyz_array pc)

/-- Property `Node.position` = `self.odom.pose.pose.position`. -/
def Node.position (n : Node) : Except PyErr Point :=
  match n.odom with
  | Except.error e => Except.error e
  | Except.ok o => Except.ok o.pose.pose.position

/-- Property `Node.orientation` = `self.odom.pose.pose.orientation`. -/
def Node.orientation (n : Node) : Except PyErr Quaternion :=
  match n.odom with
  | Except.error e => Except.error e
  | Except.ok o => Except.ok o.pose.pose.orientation

/-- Property `Node.linear_vel` = `self.odom.twist.twist.linear`. -/
def Node.linear_vel (n : Node) : Except PyErr Vector3 :=
  match n.odom with
  | Except.error e => Except.error e
  | Except.ok o => Except.ok o.twist.twist.linear

/-- Property `Node.angular_vel` = `self.odom.twist.twist.angular`. -/
def Node.angular_vel (n : Node) : Except PyErr Vector3 :=
  match n.odom with
  | Except.error e => Except.error e
  | Except.ok o => Except.ok o.twist.twist.angular

/-- `Node.param(self, name, default_value)`:
`rospy.get_param('~' + name, default_value)` — namespaced lookup with a
default fallback. -/
def Node.param (n : Node) (name : String) (default_value : PVal) : PVal :=
  match n.config ("~" ++ name) with
  | some v => v
  | none => default_value

/-- Property `State.params`: each declared default parameter resolved through
`self.node.param`; `n` is the controller the state is bound to. -/
def State.params (s : State) (n : Node) : List (String × PVal) :=
  s.default_params.map (fun p => (p.1, n.param p.1 p.2))

/-- `Node.set_speed(self, forward, angular)`: each NaN input is replaced by
zero, then exactly one Twist with linear `(forward, 0, 0)` and angular
`(0, 0, angular)` is published on `velocity_pub`. -/
def Node.set_speed (n : Node) (forward angular : RVal) : Node :=
  let forward := if RVal.isnan forward then RVal.num 0 else forward
  let angular := if RVal.isnan angular then RVal.num 0 else angular
  let twist : Twist :=
    { linear := ⟨forward, RVal.num 0, RVal.num 0⟩
      angular := ⟨RVal.num 0, RVal.num 0, angular⟩ }
  { n with published_twists := n.published_twists ++ [twist] }

/-- `Node.mark_target(self, ...)`: publishes one marker built by the external
`make_marker` collaborator (payload opaque here). -/
def Node.mark_target (n : Node) : Node :=
  { n with published_markers := n.published_markers + 1 }

/-- `Node.transition(self, to_node)`: prints the announcement, deactivates
the current state (recorded in the trace; the replaced object is dropped),
replaces the active-state slot, and activates the new state on `self`.  For
a self-transition `activate` overwrites the back-reference that `deactivate`
cleared on the aliased object, which the functional update below matches. -/
def Node.transition (n : Node) (to_node : State) : Node :=
  { n with
    log := n.log ++ ["Transitioning to: " ++ toString to_node.id]
    events := n.events ++ [Event.deactivated n.active_state.id,
                           Event.activated to_node.id]
    active_state := to_node.activate n.id }

/-- A behavioral state's `update()` body: a program over the controller
surface the module offers to states.  `fail` raises an exception other than
`WaitingForData`; the sensor reads raise `WaitingForData` when their channel
is unset, exactly as the accessors do. -/
inductive Prog where
  | done
  | fail (msg : String)
  | getOdom (k : Odometry → Prog)
  | getLaserPoints (k : List Point → Prog)
  | setSpeed (forward angular : RVal) (k : Prog)
  | markTarget (k : Prog)
  | transition (to_node : State) (k : Prog)
  | getParam (name : String) (default_value : PVal) (k : PVal → Prog)

/-- Run a state's `update()` body against the controller: returns the
controller as left by the call and the exception it raised, if any.
Mutations made before a raise persist, as in Python. -/
def runProg : Prog → Node → Node × Option PyErr
  | Prog.done, n => (n, none)
  | Prog.fail msg, n => (n, some (PyErr.other msg))
  | Prog.getOdom k, n =>
      match n.odom with
      | Except.error e => (n, some e)
      | Except.ok o => runProg (k o) n
  | Prog.getLaserPoints k, n =>
      match n.laser_points with
      | Except.error e => (n, some e)
      | Except.ok ps => runProg (k ps) n
  | Prog.setSpeed f a k, n => runProg k (n.set_speed f a)
  | Prog.markTarget k, n => runProg k n.mark_target
  | Prog.transition s k, n => runProg k (n.transition s)
  | Prog.getParam name d k, n => runProg (k (n.param name d)) n

/-- `Node.update(self)`: dispatch — invoke the active state's `update()`;
`except WaitingForData: pass` swallows exactly that exception; every other
exception propagates unchanged.  `beh` gives each state's `update()` body. -/
def Node.update (beh : State → Prog) (n : Node) : Node × Option PyErr :=
  match runProg (beh n.active_state) n with
  | (n2, some PyErr.waitingForData) => (n2, none)
  | r => r

/-- The subscription handler registered for `/odom` by `_subscribe`: write
the message into the cache slot, then dispatch. -/
def Node.odomCallback (beh : State → Prog) (msg : Odometry) (n : Node) :
    Node × Option PyErr :=
  Node.update beh { n with _odom := some msg }

/-- The subscription handler registered for `/projected_stable_scan`: write
the message into the cache slot, then dispatch. -/
def Node.laserCallback (beh : State → Prog) (msg : PointCloud2) (n : Node) :
    Node × Option PyErr :=
  Node.update beh { n with _laser_point_cloud := some msg }

/-- A state's `update()` body performs no `transition` call. -/
def Prog.noTransition : Prog → Prop
  | Prog.done => True
  | Prog.fail _ => True
  | Prog.getOdom k => ∀ o, (k o).noTransition
  | Prog.getLaserPoints k => ∀ ps, (k ps).noTransition
  | Prog.setSpeed _ _ k => k.noTransition
  | Prog.markTarget k => k.noTransition
  | Prog.transition _ _ => False
  | Prog.getParam _ _ k => ∀ v, (k v).noTransition

/-! Concrete sample objects used by witness theorems. -/

/-- A sample behavioral state. -/
def sampleState : State := { id := 0 }

/-- A second sample behavioral state, the target of sample transitions. -/
def sampleState2 : State := { id := 1 }

/-- An empty parameter server. -/
def noConfig : String → Option PVal := fun _ => none

/-- A freshly constructed controller: both cache slots unset. -/
def sampleNode : Node := Node.init 0 noConfig sampleState "test"

/-- A sample odometry message. -/
def sampleOdom : Odometry :=
  { pose := { pose := { position := ⟨RVal.num 1, RVal.num 2, RVal.num 3⟩,
                        orientation := ⟨RVal.num 0, RVal.num 0, RVal.num 0, RVal.num 1⟩ } },
    twist := { twist := { linear := ⟨RVal.num 4, RVal.num 0, RVal.num 0⟩,
                          angular := ⟨RVal.num 0, RVal.num 0, RVal.num 5⟩ } } }

/-- A sample point-cloud message. -/
def samplePC : PointCloud2 :=
  { points := [⟨RVal.num 1, RVal.num 1, RVal.num 0⟩] }

/-- The sample controller after both channels have received a message. -/
def sampleNodeWithData : Node :=
  { sampleNode with _odom := some sampleOdom, _laser_point_cloud := some samplePC }

/-- A sample parameter server: only `~a` is set. -/
def sampleConfig : String → Option PVal :=
  fun k => if k = "~a" then some (PVal.str "x") else none

/-- A sample state declaring two default parameters. -/
def sampleParamState : State :=
  { id := 2, default_params := [("a", PVal.num 1), ("b", PVal.flag true)] }

/-- A controller over `sampleConfig` with `sampleParamState` active. -/
def sampleParamNode : Node := Node.init 1 sampleConfig sampleParamState "w"

/-! Helper lemmas about the interpreter. -/

/-- Running a state's `update()` body never writes a sensor cache slot: no
operation on the controller surface mutates `_odom` or
`_laser_point_cloud`. -/
theorem runProg_preserves_caches (p : Prog) (n : Node) :
    ((runProg p n).1)._odom = n._odom ∧
    ((runProg p n).1)._laser_point_cloud = n._laser_point_cloud := by
  induction p generalizing n with
  | done => exact ⟨rfl, rfl⟩
  | fail msg => exact ⟨rfl, rfl⟩
  | getOdom k ih =>
      simp only [runProg]
      cases h : n.odom with
      | error e => exact ⟨rfl, rfl⟩
      | ok o => exact ih o n
  | getLaserPoints k ih =>
      simp only [runProg]
      cases h : n.laser_points with
      | error e => exact ⟨rfl, rfl⟩
      | ok ps => exact ih ps n
  | setSpeed f a k ih =>
      simp only [runProg]
      exact ih (n.set_speed f a)
  | markTarget k ih =>
      simp only [runProg]
      exact ih n.mark_target
  | transition s k ih =>
      simp only [runProg]
      exact ih (n.transition s)
  | getParam name d k ih =>
      simp only [runProg]
      exact ih (n.param name d) n

/-- Running an `update()` body that makes no `transition` call leaves the
active-state slot unchanged. -/
theorem runProg_preserves_active (p : Prog) (hp : p.noTransition) (n : Node) :
    ((runProg p n).1).active_state = n.active_state := by
  induction p generalizing n with
  | done => rfl
  | fail msg => rfl
  | getOdom k ih =>
      simp only [Prog.noTransition] at hp
      simp only [runProg]
      cases h : n.odom with
      | error e => rfl
      | ok o => exact ih o (hp o) n
  | getLaserPoints k ih =>
      simp only [Prog.noTransition] at hp
      simp only [runProg]
      cases h : n.laser_points with
      | error e => rfl
      | ok ps => exact ih ps (hp ps) n
  | setSpeed f a k ih =>
      simp only [Prog.noTransition] at hp
      simp only [runProg]
      exact ih hp (n.set_speed f a)
  | markTarget k ih =>
      simp only [Prog.noTransition] at hp
      simp only [runProg]
      exact ih hp n.mark_target
  | transition s k ih =>
      simp only [Prog.noTransition] at hp
  | getParam name d k ih =>
      simp only [Prog.noTransition] at hp
      simp only [runProg]
      exact ih (n.param name d) (hp (n.param name d)) n

/-- C1: if the active state's `update()` raises `WaitingForData`
(DataNotReady), the dispatch `Node.update` swallows it: no exception leaves
the dispatch boundary, and the dispatch returns exactly the controller the
state call left behind — it adds no error report, log entry or state change
of its own; in particular, whenever the state's body performed no
`transition`, the active state after dispatch is unchanged. -/
theorem C1_dispatch_swallows_data_not_ready (beh : State → Prog) (n n2 : Node)
    (h : runProg (beh n.active_state) n = (n2, some PyErr.waitingForData)) :
    Node.update beh n = (n2, none) ∧
    ((beh n.active_state).noTransition →
      (Node.update beh n).1.active_state = n.active_state) := by
  have hupd : Node.update beh n = (n2, none) := by
    unfold Node.update
    rw [h]
  refine ⟨hupd, fun hnt => ?_⟩
  have hact := runProg_preserves_active (beh n.active_state) hnt n
  rw [h] at hact
  rw [hupd]
  exact hact

/-- C1 witness: a state whose `update()` reads the odometry channel of a
fresh controller raises `WaitingForData`; dispatch swallows it and the
active state is unchanged. -/
theorem C1_dispatch_swallows_data_not_ready_witness :
    Node.update (fun _ => Prog.getOdom fun _ => Prog.done) sampleNode
      = (sampleNode, none) ∧
    (Node.update (fun _ => Prog.getOdom fun _ => Prog.done) sampleNode).1.active_state
      = sampleNode.active_state := by
  have main := C1_dispatch_swallows_data_not_ready
    (fun _ => Prog.getOdom fun _ => Prog.done) sampleNode sampleNode rfl
  exact ⟨main.1, main.2 (by simp [Prog.noTransition])⟩

/-- C2: if the active state's `update()` raises any exception other than
`WaitingForData`, the dispatch `Node.update` propagates it unchanged:
exactly the one exception kind `WaitingForData` is special-cased. -/
theorem C2_dispatch_propagates_other_errors (beh : State → Prog) (n n2 : Node)
    (e : PyErr) (hne : e ≠ PyErr.waitingForData)
    (h : runProg (beh n.active_state) n = (n2, some e)) :
    Node.update beh n = (n2, some e) := by
  unfold Node.update
  rw [h]
  cases e with
  | waitingForData => exact absurd rfl hne
  | other msg => rfl

/-- C2 witness: a state whose `update()` raises a generic exception sees it
propagate unchanged through dispatch. -/
theorem C2_dispatch_propagates_other_errors_witness :
    Node.update (fun _ => Prog.fail "boom") sampleNode
      = (sampleNode, some (PyErr.other "boom")) :=
  C2_dispatch_propagates_other_errors (fun _ => Prog.fail "boom") sampleNode
    sampleNode (PyErr.other "boom") (by decide) rfl

/-- C3: `transition(S2)` deactivates the old active state exactly once, then
replaces the slot, then activates `S2` on the controller exactly once (the
event trace extends by exactly `[deactivated S1, activated S2]`, in that
order); afterwards the active state is `S2` bound to the controller.  When
the transition is requested from within the active state's own `update()`,
the dispatch returns normally and the next dispatch uses `S2`. -/
theorem C3_transition_deactivates_then_activates (n : Node) (S2 : State) :
    (Node.transition n S2).active_state = S2.activate n.id ∧
    (Node.transition n S2).events
      = n.events ++ [Event.deactivated n.active_state.id, Event.activated S2.id] ∧
    ((Node.transition n S2).events.count (Event.deactivated n.active_state.id)
      = n.events.count (Event.deactivated n.active_state.id) + 1) ∧
    ((Node.transition n S2).events.count (Event.activated S2.id)
      = n.events.count (Event.activated S2.id) + 1) ∧
    (∀ beh : State → Prog, beh n.active_state = Prog.transition S2 Prog.done →
      Node.update beh n = (Node.transition n S2, none) ∧
      (Node.update beh n).1.active_state = S2.activate n.id) := by
  refine ⟨rfl, rfl, ?_, ?_, ?_⟩
  · simp [Node.transition, List.count_append, List.count_cons, beq_iff_eq]
  · simp [Node.transition, List.count_append, List.count_cons, beq_iff_eq]
  · intro beh hbeh
    have hupd : Node.update beh n = (Node.transition n S2, none) := by
      unfold Node.update
      rw [hbeh]
      rfl
    exact ⟨hupd, by rw [hupd]; rfl⟩

/-- C3 witness: a state whose `update()` requests a transition to a concrete
second state; after dispatch the active state is that second state and the
trace records deactivate-then-activate once each. -/
theorem C3_transition_deactivates_then_activates_witness :
    (Node.transition sampleNode sampleState2).active_state
      = sampleState2.activate sampleNode.id ∧
    (Node.transition sampleNode sampleState2).events
      = sampleNode.events ++ [Event.deactivated sampleNode.active_state.id,
                              Event.activated sampleState2.id] ∧
    Node.update (fun _ => Prog.transition sampleState2 Prog.done) sampleNode
      = (Node.transition sampleNode sampleState2, none) := by
  have main := C3_transition_deactivates_then_activates sampleNode sampleState2
  exact ⟨main.1, main.2.1,
    (main.2.2.2.2 (fun _ => Prog.transition sampleState2 Prog.done) rfl).1⟩

/-- C4: every sensor accessor and derived reading raises `WaitingForData`
(DataNotReady) exactly when its source channel's cache slot is unset, and
once a message is cached it returns the reading derived from the cached
value — never a partial or default result. -/
theorem C4_accessors_fail_iff_channel_unset (n : Node) :
    (n.odom = Except.error PyErr.waitingForData ↔ n._odom = none) ∧
    (∀ o, n._odom = some o → n.odom = Except.ok o) ∧
    (n.laser_point_cloud = Except.error PyErr.waitingForData
      ↔ n._laser_point_cloud = none) ∧
    (∀ pc, n._laser_point_cloud = some pc →
      n.laser_point_cloud = Except.ok pc) ∧
    (n.laser_points = Except.error PyErr.waitingForData
      ↔ n._laser_point_cloud = none) ∧
    (∀ pc, n._laser_point_cloud = some pc →
      n.laser_points = Except.ok (pointcloud2_to_xyz_array pc)) ∧
    (n.position = Except.error PyErr.waitingForData ↔ n._odom = none) ∧
    (∀ o, n._odom = some o → n.position = Except.ok o.pose.pose.position) ∧
    (n.orientation = Except.error PyErr.waitingForData ↔ n._odom = none) ∧
    (∀ o, n._odom = some o → n.orientation = Except.ok o.pose.pose.orientation) ∧
    (n.linear_vel = Except.error PyErr.waitingForData ↔ n._odom = none) ∧
    (∀ o, n._odom = some o → n.linear_vel = Except.ok o.twist.twist.linear) ∧
    (n.angular_vel = Except.error PyErr.waitingForData ↔ n._odom = none) ∧
    (∀ o, n._odom = some o → n.angular_vel = Except.ok o.twist.twist.angular) := by
  cases ho : n._odom <;> cases hl : n._laser_point_cloud <;>
    simp [Node.odom, Node.laser_point_cloud, Node.laser_points, Node.position,
          Node.orientation, Node.linear_vel, Node.angular_vel, ho, hl]

/-- C4 witness: on a fresh controller every accessor fails with
`WaitingForData`; after a message is cached the accessors return the cached
readings. -/
theorem C4_accessors_fail_iff_channel_unset_witness :
    sampleNode.odom = Except.error PyErr.waitingForData ∧
    sampleNode.laser_points = Except.error PyErr.waitingForData ∧
    sampleNodeWithData.odom = Except.ok sampleOdom ∧
    sampleNodeWithData.laser_points
      = Except.ok (pointcloud2_to_xyz_array samplePC) ∧
    sampleNodeWithData.position = Except.ok sampleOdom.pose.pose.position := by
  have h0 := C4_accessors_fail_iff_channel_unset sampleNode
  have h1 := C4_accessors_fail_iff_channel_unset sampleNodeWithData
  exact ⟨h0.1.mpr rfl, h0.2.2.2.2.1.mpr rfl,
    h1.2.1 sampleOdom rfl, h1.2.2.2.2.2.1 samplePC rfl,
    h1.2.2.2.2.2.2.2.1 sampleOdom rfl⟩

/-- C5 counterexample: infinity is non-finite but is not NaN, and
`cmath.isnan` is false on it, so `set_speed` publishes it unsanitized —
refuting "sanitizes each non-finite input to zero". -/
theorem C5_counterexample_infinity_not_sanitized :
    RVal.isFinite (RVal.inf false) = false ∧
    (Node.set_speed sampleNode (RVal.inf false) (RVal.num 2)).published_twists
      = [{ linear := ⟨RVal.inf false, RVal.num 0, RVal.num 0⟩,
           angular := ⟨RVal.num 0, RVal.num 0, RVal.num 2⟩ }] ∧
    RVal.inf false ≠ RVal.num 0 := by
  refine ⟨rfl, rfl, by decide⟩

/-- C5 (amended): `set_speed` sanitizes each NaN input to zero (non-NaN
inputs, including infinities, pass through unchanged) and publishes exactly
one velocity command whose forward linear component is the sanitized forward
value and whose yaw-rate angular component is the sanitized angular value,
leaving everything else on the controller unchanged; it never fails.  In
particular `set_speed(NaN, 2.0)` publishes forward=0, angular=2.0 and
`set_speed(1.0, NaN)` publishes forward=1.0, angular=0. -/
theorem C5_set_speed_sanitizes_nan (n : Node) (forward angular : RVal) :
    Node.set_speed n forward angular =
      { n with published_twists := n.published_twists ++
          [{ linear := ⟨if RVal.isnan forward then RVal.num 0 else forward,
                        RVal.num 0, RVal.num 0⟩,
             angular := ⟨RVal.num 0, RVal.num 0,
                         if RVal.isnan angular then RVal.num 0 else angular⟩ }] } ∧
    (Node.set_speed n RVal.nan (RVal.num 2)).published_twists
      = n.published_twists ++
        [{ linear := ⟨RVal.num 0, RVal.num 0, RVal.num 0⟩,
           angular := ⟨RVal.num 0, RVal.num 0, RVal.num 2⟩ }] ∧
    (Node.set_speed n (RVal.num 1) RVal.nan).published_twists
      = n.published_twists ++
        [{ linear := ⟨RVal.num 1, RVal.num 0, RVal.num 0⟩,
           angular := ⟨RVal.num 0, RVal.num 0, RVal.num 0⟩ }] :=
  ⟨rfl, rfl, rfl⟩

/-- C6: construction sets the active state to the initial state and
activates it on the controller exactly once before the two sensor
subscriptions are registered (the event trace is exactly
`[activated S0, subscribed /odom, subscribed /projected_stable_scan]`), and
leaves both sensor cache slots unset and nothing published. -/
theorem C6_construction_activates_before_subscribing (id : Nat)
    (config : String → Option PVal) (S0 : State) (name : String) :
    (Node.init id config S0 name).active_state = S0.activate id ∧
    (Node.init id config S0 name).events
      = [Event.activated S0.id, Event.subscribed "/odom",
         Event.subscribed "/projected_stable_scan"] ∧
    ((Node.init id config S0 name).events.count (Event.activated S0.id) = 1) ∧
    (Node.init id config S0 name)._odom = none ∧
    (Node.init id config S0 name)._laser_point_cloud = none ∧
    (Node.init id config S0 name).published_twists = [] := by
  refine ⟨rfl, rfl, ?_, rfl, rfl, rfl⟩
  simp [Node.init, List.count_cons, beq_iff_eq]

/-- Dispatch never writes a sensor cache slot: `Node.update` returns the
controller left by the state's body, whose operations never touch the
slots. -/
theorem update_preserves_caches (beh : State → Prog) (n : Node) :
    ((Node.update beh n).1)._odom = n._odom ∧
    ((Node.update beh n).1)._laser_point_cloud = n._laser_point_cloud := by
  have h := runProg_preserves_caches (beh n.active_state) n
  unfold Node.update
  cases hr : runProg (beh n.active_state) n with
  | mk n2 e =>
    rw [hr] at h
    cases e with
    | none => exact h
    | some err =>
      cases err with
      | waitingForData => exact h
      | other msg => exact h

/-- A probe state body: read the odometry and publish its x position as the
forward speed, so the published command reveals which message was read. -/
def readXProg : Prog :=
  Prog.getOdom (fun o =>
    Prog.setSpeed o.pose.pose.position.x (RVal.num 0) Prog.done)

/-- Every state runs the probe body `readXProg`. -/
def readXBeh : State → Prog := fun _ => readXProg

/-- The command `readXProg` publishes after reading odometry `o`. -/
def xCommand (o : Odometry) : Twist :=
  { linear := ⟨if RVal.isnan o.pose.pose.position.x then RVal.num 0
               else o.pose.pose.position.x, RVal.num 0, RVal.num 0⟩,
    angular := ⟨RVal.num 0, RVal.num 0, RVal.num 0⟩ }

/-- C7: each sensor cache slot is `None` at construction; each
message-delivery callback unconditionally overwrites its own slot with the
delivered message (latest wins) and leaves the other slot alone; no
operation of the dispatched state body nor `transition` ever writes a slot,
so a slot is never cleared back to `None`; and in the sequence deliver `A`,
dispatch, deliver `B`, dispatch, the first dispatch reads `A` and the second
reads `B`, with no memory of `A`. -/
theorem C7_cache_slots_latest_wins :
    (∀ (id : Nat) (config : String → Option PVal) (s : State) (nm : String),
      (Node.init id config s nm)._odom = none ∧
      (Node.init id config s nm)._laser_point_cloud = none) ∧
    (∀ (beh : State → Prog) (msg : Odometry) (n : Node),
      ((Node.odomCallback beh msg n).1)._odom = some msg ∧
      ((Node.odomCallback beh msg n).1)._laser_point_cloud
        = n._laser_point_cloud) ∧
    (∀ (beh : State → Prog) (msg : PointCloud2) (n : Node),
      ((Node.laserCallback beh msg n).1)._laser_point_cloud = some msg ∧
      ((Node.laserCallback beh msg n).1)._odom = n._odom) ∧
    (∀ (p : Prog) (n : Node),
      ((runProg p n).1)._odom = n._odom ∧
      ((runProg p n).1)._laser_point_cloud = n._laser_point_cloud) ∧
    (∀ (n : Node) (to_node : State),
      (Node.transition n to_node)._odom = n._odom ∧
      (Node.transition n to_node)._laser_point_cloud = n._laser_point_cloud) ∧
    (∀ (n : Node) (A B : Odometry),
      (Node.odomCallback readXBeh A n).2 = none ∧
      (Node.odomCallback readXBeh B (Node.odomCallback readXBeh A n).1).2
        = none ∧
      ((Node.odomCallback readXBeh B
          (Node.odomCallback readXBeh A n).1).1).published_twists
        = n.published_twists ++ [xCommand A, xCommand B]) := by
  refine ⟨fun id config s nm => ⟨rfl, rfl⟩, ?_, ?_,
    fun p n => runProg_preserves_caches p n,
    fun n to_node => ⟨rfl, rfl⟩, ?_⟩
  · intro beh msg n
    exact update_preserves_caches beh { n with _odom := some msg }
  · intro beh msg n
    exact ⟨(update_preserves_caches beh
              { n with _laser_point_cloud := some msg }).2,
           (update_preserves_caches beh
              { n with _laser_point_cloud := some msg }).1⟩
  · intro n A B
    refine ⟨rfl, rfl, ?_⟩
    simp [Node.odomCallback, Node.update, readXBeh, readXProg, runProg,
          Node.odom, Node.set_speed, xCommand, List.append_assoc]

/-- C8: the derived `params` mapping has exactly the keys of the state's
`default_params`, each value resolved through the controller's namespaced
configuration lookup (`'~' + name`), falling back to the declared default
when the configuration key is unset; the lookup is total. -/
theorem C8_params_resolved_with_defaults (s : State) (n : Node) :
    ((State.params s n).map Prod.fst = s.default_params.map Prod.fst) ∧
    (∀ name val, (name, val) ∈ s.default_params →
      (name, n.param name val) ∈ State.params s n) ∧
    (∀ name val, n.config ("~" ++ name) = none → n.param name val = val) ∧
    (∀ name val v, n.config ("~" ++ name) = some v → n.param name val = v) := by
  refine ⟨?_, ?_, ?_, ?_⟩
  · simp [State.params]
  · intro name val h
    exact List.mem_map_of_mem (fun p => (p.1, n.param p.1 p.2)) h
  · intro name val h
    unfold Node.param
    rw [h]
  · intro name val v h
    unfold Node.param
    rw [h]

/-- C8 witness: a state declaring defaults for `a` and `b` against a
configuration that sets `~a` and leaves `~b` unset resolves `a` from the
configuration and `b` from its default. -/
theorem C8_params_resolved_with_defaults_witness :
    ((State.params sampleParamState sampleParamNode).map Prod.fst
      = ["a", "b"]) ∧
    ("a", sampleParamNode.param "a" (PVal.num 1))
      ∈ State.params sampleParamState sampleParamNode ∧
    sampleParamNode.param "b" (PVal.flag true) = PVal.flag true ∧
    sampleParamNode.param "a" (PVal.num 1) = PVal.str "x" := by
  have h := C8_params_resolved_with_defaults sampleParamState sampleParamNode
  refine ⟨h.1.trans rfl, h.2.1 "a" (PVal.num 1) (by simp [sampleParamState]),
    h.2.2.1 "b" (PVal.flag true) rfl,
    h.2.2.2 "a" (PVal.num 1) (PVal.str "x") rfl⟩

/-- C9: `transition` leaves both sensor cache slots (and everything
published, the configuration and the controller id) unchanged — only the
active-state slot, the log and the lifecycle trace change — so the newly
activated state's first `update` observes the sensor data delivered before
the transition. -/
theorem C9_transition_preserves_sensor_caches (n : Node) (to_node : State) :
    (Node.transition n to_node)._odom = n._odom ∧
    (Node.transition n to_node)._laser_point_cloud = n._laser_point_cloud ∧
    (Node.transition n to_node).published_twists = n.published_twists ∧
    (Node.transition n to_node).published_markers = n.published_markers ∧
    (Node.transition n to_node).config = n.config ∧
    (Node.transition n to_node).id = n.id ∧
    Node.odom (Node.transition n to_node) = n.odom ∧
    Node.laser_points (Node.transition n to_node) = n.laser_points ∧
    (Node.transition n to_node).active_state = to_node.activate n.id :=
  ⟨rfl, rfl, rfl, rfl, rfl, rfl, rfl, rfl, rfl⟩

/-- C10: a self-transition is accepted without error: `transition` run on
the currently active state deactivates it and reactivates it on the same
controller (both recorded in the trace), and — since `activate` rebinds the
back-reference that `deactivate` cleared — afterwards the very same state is
active again with its back-reference bound to the controller. -/
theorem C10_self_transition_rebinds (n : Node)
    (h : n.active_state.node = some n.id) :
    Node.transition n n.active_state =
      { n with
        log := n.log ++ ["Transitioning to: " ++ toString n.active_state.id],
        events := n.events ++ [Event.deactivated n.active_state.id,
                               Event.activated n.active_state.id] } ∧
    (Node.transition n n.active_state).active_state = n.active_state ∧
    (Node.transition n n.active_state).active_state.node = some n.id := by
  have key : State.activate n.active_state n.id = n.active_state := by
    unfold State.activate
    rw [← h]
  refine ⟨?_, ?_, rfl⟩
  · unfold Node.transition
    rw [key]
  · show State.activate n.active_state n.id = n.active_state
    exact key

/-- C10 witness: the freshly constructed controller's active state is bound
to it; a self-transition leaves that same state active and bound. -/
theorem C10_self_transition_rebinds_witness :
    (Node.transition sampleNode sampleNode.active_state).active_state
      = sampleNode.active_state ∧
    (Node.transition sampleNode sampleNode.active_state).active_state.node
      = some sampleNode.id :=
  ⟨(C10_self_transition_rebinds sampleNode rfl).2.1,
   (C10_self_transition_rebinds sampleNode rfl).2.2⟩

end Warmup
